import Mathlib

/-!
Verification of `terraform-provider-pgrole`, a Terraform provider that manages
PostgreSQL role attributes (BYPASSRLS, REPLICATION, CONNECTION LIMIT,
statement_timeout, pgaudit.log) on pre-existing roles.

The development shallowly embeds:
  * the SQL string builders of the five resources
    (`internal/provider/bypassrls_resource.go`, `audit_resource.go`,
    the replication, connection-limit and statement-timeout resource files),
  * the provider `Configure` logic (`internal/provider/provider.go`),
  * the CRUD handlers of the five resources, as functions over an explicit
    model of the relevant fragment of PostgreSQL state (role catalog rows
    and per-role configuration arrays), and
  * PostgreSQL's documented semantics of the exact statements and queries
    the provider emits (`ALTER ROLE`, catalog `SELECT`s, `current_setting`).
-/

namespace Pgrole

/-! ## String helpers

Go's `fmt.Sprintf("%q", s)` (used for role names in every `ALTER ROLE`) and
`strings.TrimPrefix` are modelled below at the character-list level.
-/

/-- Lower-case hexadecimal digit, as used by Go's `strconv` escapes. -/
def hexDigit (n : Nat) : Char :=
  if n < 10 then Char.ofNat (48 + n) else Char.ofNat (87 + n)

/-- Escape of a single character under Go's `strconv.Quote` (the semantics of
the `%q` verb applied to a string): backslash and double quote get a
backslash escape, the named control characters get their two-character
escapes, other control bytes get `\xHH`, and printable characters are kept. -/
def goEscapeChar (c : Char) : List Char :=
  if c = '"' then ['\\', '"']
  else if c = '\\' then ['\\', '\\']
  else if c = Char.ofNat 7 then ['\\', 'a']
  else if c = Char.ofNat 8 then ['\\', 'b']
  else if c = Char.ofNat 12 then ['\\', 'f']
  else if c = '\n' then ['\\', 'n']
  else if c = '\r' then ['\\', 'r']
  else if c = '\t' then ['\\', 't']
  else if c = Char.ofNat 11 then ['\\', 'v']
  else if c.toNat < 32 ∨ c.toNat = 127 then
    ['\\', 'x', hexDigit (c.toNat / 16), hexDigit (c.toNat % 16)]
  else [c]

/-- Body of Go's `%q` quoting: every character escaped, concatenated. -/
def goEscape (s : String) : String :=
  String.mk (s.data.flatMap goEscapeChar)

/-- Go's `fmt.Sprintf("%q", s)`: the escaped body wrapped in double quotes. -/
def goQuote (s : String) : String :=
  "\"" ++ goEscape s ++ "\""

/-- Go's `strings.TrimPrefix`: drop `pre` from the front of `s` when it is a
prefix, otherwise return `s` unchanged. -/
def trimPrefix (pre s : String) : String :=
  if pre.data.isPrefixOf s.data then String.mk (s.data.drop pre.data.length) else s

/-- Returns `true` iff `pat` occurs as a contiguous substring of `s`. -/
def subList (pat : List Char) : List Char → Bool
  | [] => pat.isEmpty
  | c :: rest => pat.isPrefixOf (c :: rest) || subList pat rest

/-- Returns `true` iff the string `pat` occurs as a contiguous substring of `s`. -/
def hasSubstr (s pat : String) : Bool :=
  subList pat.data s.data

/-- Returns `true` iff `pre` is a prefix of `s`. -/
def startsWithStr (s pre : String) : Bool :=
  pre.data.isPrefixOf s.data

/-! ## SQL string builders

One definition per `sql…` helper in the source; `sqlResetAuditLog` names the
statement that `auditResource.Delete` formats inline. -/

/-- Embeds `sqlEnableBypassRLS` from `bypassrls_resource.go`. -/
def sqlEnableBypassRLS (role : String) : String :=
  "ALTER ROLE " ++ goQuote role ++ " BYPASSRLS;"

/-- Embeds `sqlDisableBypassRLS` from `bypassrls_resource.go`. -/
def sqlDisableBypassRLS (role : String) : String :=
  "ALTER ROLE " ++ goQuote role ++ " NOBYPASSRLS;"

/-- Embeds `sqlEnableReplication` from the replication resource file. -/
def sqlEnableReplication (role : String) : String :=
  "ALTER ROLE " ++ goQuote role ++ " REPLICATION;"

/-- Embeds `sqlDisableReplication` from the replication resource file. -/
def sqlDisableReplication (role : String) : String :=
  "ALTER ROLE " ++ goQuote role ++ " NOREPLICATION;"

/-- Embeds `sqlSetConnectionLimit` from the connection-limit resource file.  The Go
argument is an `int32` rendered with `%d`; it is modelled as `Int`. -/
def sqlSetConnectionLimit (role : String) (connLimit : Int) : String :=
  "ALTER ROLE " ++ goQuote role ++ " CONNECTION LIMIT " ++ toString connLimit ++ ";"

/-- Embeds `sqlSetStatementTimeout` from the statement-timeout resource file. -/
def sqlSetStatementTimeout (role timeout : String) : String :=
  "ALTER ROLE " ++ goQuote role ++ " SET statement_timeout = '" ++ timeout ++ "';"

/-- Embeds `sqlResetStatementTimeout` from the statement-timeout resource file. -/
def sqlResetStatementTimeout (role : String) : String :=
  "ALTER ROLE " ++ goQuote role ++ " RESET statement_timeout;"

/-- Embeds `sqlSetAuditLog` from `audit_resource.go`. -/
def sqlSetAuditLog (role auditLogOption : String) : String :=
  "ALTER ROLE " ++ goQuote role ++ " SET pgaudit.log = '" ++ auditLogOption ++ "';"

/-- The statement formatted inline by `auditResource.Delete`. -/
def sqlResetAuditLog (role : String) : String :=
  "ALTER ROLE " ++ goQuote role ++ " RESET pgaudit.log;"

/-! ## PostgreSQL model

The fragment of PostgreSQL state the provider touches: for each role the
`pg_roles` columns `rolbypassrls`, `rolreplication`, `rolconnlimit` and the
per-role configuration array `rolconfig` (entries of the form
`parameter=value`, written by `ALTER ROLE … SET` and removed by
`ALTER ROLE … RESET`), plus the server-level default used by
`current_setting` when the connecting role carries no per-role entry. -/

/-- One row of `pg_roles`, restricted to the columns the provider reads or
writes.  `rolconnlimit` is an `int4` in PostgreSQL, modelled as `Int`. -/
structure RoleRow where
  rolbypassrls : Bool
  rolreplication : Bool
  rolconnlimit : Int
  rolconfig : List String
deriving DecidableEq, Repr

/-- The modelled database: the role catalog (association list keyed by
`rolname`) and the server's default value of the `pgaudit.log` parameter,
which `current_setting` falls back to when the session's role carries no
per-role entry. -/
structure PGState where
  roles : List (String × RoleRow)
  pgauditDefault : String
deriving DecidableEq, Repr

/-- Catalog lookup by role name (first match). -/
def lookupRole : List (String × RoleRow) → String → Option RoleRow
  | [], _ => none
  | (n, r) :: rest, name => if n = name then some r else lookupRole rest name

/-- Update the first row with the given name, leaving others untouched. -/
def updateRole : List (String × RoleRow) → String → (RoleRow → RoleRow) → List (String × RoleRow)
  | [], _, _ => []
  | (n, r) :: rest, name, f =>
    if n = name then (n, f r) :: rest else (n, r) :: updateRole rest name f

/-- Does a `rolconfig` entry set the given parameter (i.e. start with
`param=`)? -/
def entryMatches (param e : String) : Bool :=
  (param ++ "=").data.isPrefixOf e.data

/-- Effect of `ALTER ROLE … SET param = 'value'` on a `rolconfig` array:
replace the first entry for `param`, or append one. -/
def setConfigEntry (cfg : List String) (param value : String) : List String :=
  match cfg with
  | [] => [param ++ "=" ++ value]
  | e :: rest =>
    if entryMatches param e then (param ++ "=" ++ value) :: rest
    else e :: setConfigEntry rest param value

/-- Effect of `ALTER ROLE … RESET param` on a `rolconfig` array: remove the
entries for `param`. -/
def resetConfigEntry (cfg : List String) (param : String) : List String :=
  cfg.filter (fun e => !entryMatches param e)

/-- First `rolconfig` entry for `param`, if any. -/
def findConfigEntry (cfg : List String) (param : String) : Option String :=
  cfg.find? (entryMatches param)

/-- Models `pg_catalog.current_setting(param)` as observed by a fresh session
authenticated as `connUser`: the connecting role's per-role setting when one
exists, otherwise the server default.  Per-role `ALTER ROLE … SET` values
apply to new sessions of that role only, which is exactly what this
resolution captures.  (Only `pgaudit.log` is ever read this way.) -/
def currentSetting (pg : PGState) (connUser param : String) : String :=
  match lookupRole pg.roles connUser with
  | none => pg.pgauditDefault
  | some row =>
    match findConfigEntry row.rolconfig param with
    | some e => trimPrefix (param ++ "=") e
    | none => pg.pgauditDefault

/-- The mutating statements the provider can emit, one constructor per
`ALTER ROLE` form appearing in the source. -/
inductive PgStmt where
  | alterBypassRLS (role : String) (enabled : Bool)
  | alterReplication (role : String) (enabled : Bool)
  | alterConnLimit (role : String) (limit : Int)
  | setStatementTimeout (role timeout : String)
  | resetStatementTimeout (role : String)
  | setAuditLog (role opt : String)
  | resetAuditLog (role : String)
deriving DecidableEq, Repr

/-- The role a statement targets. -/
def stmtRole : PgStmt → String
  | .alterBypassRLS role _ => role
  | .alterReplication role _ => role
  | .alterConnLimit role _ => role
  | .setStatementTimeout role _ => role
  | .resetStatementTimeout role => role
  | .setAuditLog role _ => role
  | .resetAuditLog role => role

/-- The SQL text of a statement — exactly the string the corresponding
source `sql…` helper produces. -/
def render : PgStmt → String
  | .alterBypassRLS role true => sqlEnableBypassRLS role
  | .alterBypassRLS role false => sqlDisableBypassRLS role
  | .alterReplication role true => sqlEnableReplication role
  | .alterReplication role false => sqlDisableReplication role
  | .alterConnLimit role limit => sqlSetConnectionLimit role limit
  | .setStatementTimeout role timeout => sqlSetStatementTimeout role timeout
  | .resetStatementTimeout role => sqlResetStatementTimeout role
  | .setAuditLog role opt => sqlSetAuditLog role opt
  | .resetAuditLog role => sqlResetAuditLog role

/-- How a statement rewrites the catalog row of its target role:
`BYPASSRLS`/`NOBYPASSRLS` and `REPLICATION`/`NOREPLICATION` set the boolean
column, `CONNECTION LIMIT n` sets `rolconnlimit`, and `SET`/`RESET` edit the
`rolconfig` array entry of the named parameter. -/
def stmtEffect : PgStmt → RoleRow → RoleRow
  | .alterBypassRLS _ b, r => { r with rolbypassrls := b }
  | .alterReplication _ b, r => { r with rolreplication := b }
  | .alterConnLimit _ n, r => { r with rolconnlimit := n }
  | .setStatementTimeout _ t, r =>
    { r with rolconfig := setConfigEntry r.rolconfig "statement_timeout" t }
  | .resetStatementTimeout _, r =>
    { r with rolconfig := resetConfigEntry r.rolconfig "statement_timeout" }
  | .setAuditLog _ v, r =>
    { r with rolconfig := setConfigEntry r.rolconfig "pgaudit.log" v }
  | .resetAuditLog _, r =>
    { r with rolconfig := resetConfigEntry r.rolconfig "pgaudit.log" }

/-- PostgreSQL's semantics of the statements above: `ALTER ROLE` on a
missing role fails; otherwise the target role's catalog row is rewritten by
`stmtEffect`.  No statement ever creates or drops a role. -/
def pgExec (pg : PGState) (stmt : PgStmt) : Except String PGState :=
  match lookupRole pg.roles (stmtRole stmt) with
  | none => .error ("role " ++ goQuote (stmtRole stmt) ++ " does not exist")
  | some _ =>
    .ok { pg with roles := updateRole pg.roles (stmtRole stmt) (stmtEffect stmt) }

/-! ## Read queries

The five query strings the `Read` handlers pass to `QueryRowContext`
(verbatim from the source; the role is always the `$1` bind argument), and
their semantics over `PGState`. -/

/-- Query of `bypassrlsResource.Read`. -/
def queryBypassRLS : String :=
  "SELECT rolbypassrls FROM pg_roles WHERE rolname = $1;"

/-- Query of `replicationResource.Read`. -/
def queryReplication : String :=
  "SELECT rolreplication FROM pg_roles WHERE rolname = $1;"

/-- Query of `connectionLimitResource.Read`. -/
def queryConnectionLimit : String :=
  "SELECT rolconnlimit FROM pg_roles WHERE rolname = $1;"

/-- Query of `auditResource.Read`. -/
def queryAuditLog : String :=
  "SELECT pg_catalog.current_setting('pgaudit.log') FROM pg_roles WHERE rolname = $1;"

/-- Query of `statementTimeoutResource.Read` (multi-line literal in the
source). -/
def queryStatementTimeout : String :=
  "SELECT setting\nFROM (\n\tSELECT UNNEST(rolconfig) AS setting\n\tFROM pg_roles\n\tWHERE rolname = $1\n) t\nWHERE setting LIKE 'statement_timeout=%' LIMIT 1;"

/-- Error outcome of `QueryRowContext(...).Scan`: `noRows` is Go's
`sql.ErrNoRows` (the query returned no row); `other` stands for any other
database error. -/
inductive SqlErr where
  | noRows
  | other (msg : String)
deriving DecidableEq, Repr

/-- Semantics of `queryBypassRLS`: the role's `rolbypassrls` column, or no
row when the role does not exist. -/
def qryBypassRLS (pg : PGState) (role : String) : Except SqlErr Bool :=
  match lookupRole pg.roles role with
  | none => .error .noRows
  | some r => .ok r.rolbypassrls

/-- Semantics of `queryReplication`. -/
def qryReplication (pg : PGState) (role : String) : Except SqlErr Bool :=
  match lookupRole pg.roles role with
  | none => .error .noRows
  | some r => .ok r.rolreplication

/-- Semantics of `queryConnectionLimit`. -/
def qryConnectionLimit (pg : PGState) (role : String) : Except SqlErr Int :=
  match lookupRole pg.roles role with
  | none => .error .noRows
  | some r => .ok r.rolconnlimit

/-- Semantics of `queryStatementTimeout`: the first `rolconfig` entry of the
role that starts with `statement_timeout=`; no row when the role is missing
or carries no such entry. -/
def qryStatementTimeout (pg : PGState) (role : String) : Except SqlErr String :=
  match lookupRole pg.roles role with
  | none => .error .noRows
  | some r =>
    match findConfigEntry r.rolconfig "statement_timeout" with
    | none => .error .noRows
    | some e => .ok e

/-- Semantics of `queryAuditLog`: the `FROM pg_roles WHERE rolname = $1`
clause only gates on the role's existence; the selected value is
`current_setting('pgaudit.log')` of the session doing the reading, i.e. of
the role the provider's connection is authenticated as (`connUser`) — not a
per-role column of the `$1` role. -/
def qryAuditLog (pg : PGState) (connUser role : String) : Except SqlErr String :=
  match lookupRole pg.roles role with
  | none => .error .noRows
  | some _ => .ok (currentSetting pg connUser "pgaudit.log")

/-! ## Terraform-side embedding -/

/-- Outcome of `r.getDB(ctx)` (the provider-configured connection factory
`F`): a failure, or a connection authenticated as the provider's configured
user. -/
inductive GetDB where
  | fail (msg : String)
  | conn (user : String)
deriving DecidableEq, Repr

/-- Observable outcome of one CRUD handler call: the statements passed to
`ExecContext`, the `(query, $1 bind argument)` pairs passed to
`QueryRowContext`, the diagnostics added, the state written by
`resp.State.Set` (if any), and the resulting database. -/
structure CrudOut (σ : Type) where
  execTrace : List String
  queryTrace : List (String × String)
  diags : List String
  newState : Option σ
  pg : PGState
deriving Repr

/-- The diagnostic detail every handler adds when `getDB` fails. -/
def connMsg (e : String) : String :=
  "Failed to get database connection: " ++ e

/-- The diagnostic detail every handler adds when `ExecContext` fails. -/
def sqlMsg (e : String) : String :=
  "Failed to execute SQL: " ++ e

/-- Shared shape of every Create/Update/Delete handler: get a connection
(abort with a diagnostic on failure), execute one `ALTER ROLE` statement
(abort with a diagnostic on failure), then write `newSt` (the plan for
Create/Update, nothing for Delete) as the new state. -/
def runAlter {σ : Type} (getDB : GetDB) (stmt : PgStmt) (newSt : Option σ)
    (pg : PGState) : CrudOut σ :=
  match getDB with
  | .fail e => ⟨[], [], [connMsg e], none, pg⟩
  | .conn _ =>
    match pgExec pg stmt with
    | .error e => ⟨[render stmt], [], [sqlMsg e], none, pg⟩
    | .ok pg2 => ⟨[render stmt], [], [], newSt, pg2⟩

/-! ### Resource models

One structure per `tfsdk` model in the source.  `connection_limit` is an
`int32` attribute, modelled as `Int`. -/

/-- Embeds `bypassrlsModel` (tags `role`, `enabled`). -/
structure bypassrlsModel where
  role : String
  enabled : Bool
deriving DecidableEq, Repr

/-- Embeds `replicationModel` (tags `role`, `enabled` — identical to
`bypassrlsModel`). -/
structure replicationModel where
  role : String
  enabled : Bool
deriving DecidableEq, Repr

/-- Embeds `connectionLimitModel` (tags `role`, `connection_limit`). -/
structure connectionLimitModel where
  role : String
  connectionLimit : Int
deriving DecidableEq, Repr

/-- Embeds `statementTimeoutModel` (tags `role`, `timeout`). -/
structure statementTimeoutModel where
  role : String
  timeout : String
deriving DecidableEq, Repr

/-- Embeds `auditModel` (tags `role`, `audit_log_option`). -/
structure auditModel where
  role : String
  auditLogOption : String
deriving DecidableEq, Repr

/-- The wire form of a stored boolean-attribute resource state: the two
attributes `role` and `enabled` that both `bypassrlsModel` and
`replicationModel` map onto via identical `tfsdk` tags. -/
structure TfRawState where
  role : String
  enabled : Bool
deriving DecidableEq, Repr

/-- Models `req.State.Get` into a `bypassrlsModel` (tag-directed decoding). -/
def decodeBypassrls (raw : TfRawState) : bypassrlsModel :=
  ⟨raw.role, raw.enabled⟩

/-- Models `req.State.Get` into a `replicationModel` (tag-directed decoding). -/
def decodeReplication (raw : TfRawState) : replicationModel :=
  ⟨raw.role, raw.enabled⟩

/-- Models `resp.State.Set` of a `bypassrlsModel` (tag-directed encoding). -/
def encodeBypassrls (m : bypassrlsModel) : TfRawState :=
  ⟨m.role, m.enabled⟩

/-- Models `resp.State.Set` of a `replicationModel` (tag-directed encoding). -/
def encodeReplication (m : replicationModel) : TfRawState :=
  ⟨m.role, m.enabled⟩

/-! ### BYPASSRLS resource handlers -/

/-- Embeds `bypassrlsResource.Create`: `sqlEnableBypassRLS`/`sqlDisableBypassRLS`
according to `plan.Enabled`, then the plan becomes the new state. -/
def bypassrlsCreate (getDB : GetDB) (plan : bypassrlsModel) (pg : PGState) :
    CrudOut bypassrlsModel :=
  runAlter getDB (.alterBypassRLS plan.role plan.enabled) (some plan) pg

/-- Embeds `bypassrlsResource.Update` — same body as Create. -/
def bypassrlsUpdate (getDB : GetDB) (plan : bypassrlsModel) (pg : PGState) :
    CrudOut bypassrlsModel :=
  runAlter getDB (.alterBypassRLS plan.role plan.enabled) (some plan) pg

/-- Embeds `bypassrlsResource.Delete`: `sqlDisableBypassRLS`; no state written. -/
def bypassrlsDelete (getDB : GetDB) (state : bypassrlsModel) (pg : PGState) :
    CrudOut bypassrlsModel :=
  runAlter getDB (.alterBypassRLS state.role false) none pg

/-- Embeds `bypassrlsResource.Read`: query `rolbypassrls` for the stored role (any
scan error is fatal), overwrite `enabled` with the observed value. -/
def bypassrlsRead (getDB : GetDB) (state : bypassrlsModel) (pg : PGState) :
    CrudOut bypassrlsModel :=
  match getDB with
  | .fail e => ⟨[], [], [connMsg e], none, pg⟩
  | .conn _ =>
    match qryBypassRLS pg state.role with
    | .error _ =>
      ⟨[], [(queryBypassRLS, state.role)],
        ["Failed to query BYPASSRLS status for role " ++ state.role], none, pg⟩
    | .ok b =>
      ⟨[], [(queryBypassRLS, state.role)], [], some { state with enabled := b }, pg⟩

/-- Embeds `bypassrlsResource.ImportState`: `enabled` hardcoded to `false`,
the import ID passed through into `role`. -/
def bypassrlsImportState (id : String) : bypassrlsModel :=
  ⟨id, false⟩

/-! ### REPLICATION resource handlers -/

/-- Embeds `replicationResource.Create`. -/
def replicationCreate (getDB : GetDB) (plan : replicationModel) (pg : PGState) :
    CrudOut replicationModel :=
  runAlter getDB (.alterReplication plan.role plan.enabled) (some plan) pg

/-- Embeds `replicationResource.Update`. -/
def replicationUpdate (getDB : GetDB) (plan : replicationModel) (pg : PGState) :
    CrudOut replicationModel :=
  runAlter getDB (.alterReplication plan.role plan.enabled) (some plan) pg

/-- Embeds `replicationResource.Delete`: `sqlDisableReplication`. -/
def replicationDelete (getDB : GetDB) (state : replicationModel) (pg : PGState) :
    CrudOut replicationModel :=
  runAlter getDB (.alterReplication state.role false) none pg

/-- Embeds `replicationResource.Read` as written in the source: the prior state is
decoded into a `bypassrlsModel` (not `replicationModel`), `rolreplication`
is queried for the stored role, `Enabled` is overwritten with the observed
value, and the updated model is written back. -/
def replicationRead (getDB : GetDB) (raw : TfRawState) (pg : PGState) :
    CrudOut TfRawState :=
  let state := decodeBypassrls raw
  match getDB with
  | .fail e => ⟨[], [], [connMsg e], none, pg⟩
  | .conn _ =>
    match qryReplication pg state.role with
    | .error _ =>
      ⟨[], [(queryReplication, state.role)],
        ["Failed to query REPLICATION status for role " ++ state.role], none, pg⟩
    | .ok b =>
      ⟨[], [(queryReplication, state.role)], [],
        some (encodeBypassrls { state with enabled := b }), pg⟩

/-- The same handler, decoding into the resource's own `replicationModel`
instead — the reference implementation `replicationRead` is compared
against. -/
def replicationReadOwnModel (getDB : GetDB) (raw : TfRawState) (pg : PGState) :
    CrudOut TfRawState :=
  let state := decodeReplication raw
  match getDB with
  | .fail e => ⟨[], [], [connMsg e], none, pg⟩
  | .conn _ =>
    match qryReplication pg state.role with
    | .error _ =>
      ⟨[], [(queryReplication, state.role)],
        ["Failed to query REPLICATION status for role " ++ state.role], none, pg⟩
    | .ok b =>
      ⟨[], [(queryReplication, state.role)], [],
        some (encodeReplication { state with enabled := b }), pg⟩

/-- Embeds `replicationResource.ImportState`. -/
def replicationImportState (id : String) : replicationModel :=
  ⟨id, false⟩

/-! ### CONNECTION LIMIT resource handlers -/

/-- Embeds `connectionLimitResource.Create`. -/
def connectionLimitCreate (getDB : GetDB) (plan : connectionLimitModel) (pg : PGState) :
    CrudOut connectionLimitModel :=
  runAlter getDB (.alterConnLimit plan.role plan.connectionLimit) (some plan) pg

/-- Embeds `connectionLimitResource.Update`. -/
def connectionLimitUpdate (getDB : GetDB) (plan : connectionLimitModel) (pg : PGState) :
    CrudOut connectionLimitModel :=
  runAlter getDB (.alterConnLimit plan.role plan.connectionLimit) (some plan) pg

/-- Embeds `connectionLimitResource.Delete`: `sqlSetConnectionLimit(role, -1)`. -/
def connectionLimitDelete (getDB : GetDB) (state : connectionLimitModel) (pg : PGState) :
    CrudOut connectionLimitModel :=
  runAlter getDB (.alterConnLimit state.role (-1)) none pg

/-- Embeds `connectionLimitResource.Read`: query `rolconnlimit` (any scan error is
fatal), overwrite `connectionLimit`. -/
def connectionLimitRead (getDB : GetDB) (state : connectionLimitModel) (pg : PGState) :
    CrudOut connectionLimitModel :=
  match getDB with
  | .fail e => ⟨[], [], [connMsg e], none, pg⟩
  | .conn _ =>
    match qryConnectionLimit pg state.role with
    | .error _ =>
      ⟨[], [(queryConnectionLimit, state.role)],
        ["Failed to query CONNECTION LIMIT value for role " ++ state.role], none, pg⟩
    | .ok n =>
      ⟨[], [(queryConnectionLimit, state.role)], [],
        some { state with connectionLimit := n }, pg⟩

/-- Embeds `connectionLimitResource.ImportState`: `connection_limit` hardcoded to
`-1`. -/
def connectionLimitImportState (id : String) : connectionLimitModel :=
  ⟨id, -1⟩

/-! ### STATEMENT TIMEOUT resource handlers -/

/-- Embeds `statementTimeoutResource.Create`. -/
def statementTimeoutCreate (getDB : GetDB) (plan : statementTimeoutModel) (pg : PGState) :
    CrudOut statementTimeoutModel :=
  runAlter getDB (.setStatementTimeout plan.role plan.timeout) (some plan) pg

/-- Embeds `statementTimeoutResource.Update`. -/
def statementTimeoutUpdate (getDB : GetDB) (plan : statementTimeoutModel) (pg : PGState) :
    CrudOut statementTimeoutModel :=
  runAlter getDB (.setStatementTimeout plan.role plan.timeout) (some plan) pg

/-- Embeds `statementTimeoutResource.Delete`: `sqlResetStatementTimeout`. -/
def statementTimeoutDelete (getDB : GetDB) (state : statementTimeoutModel) (pg : PGState) :
    CrudOut statementTimeoutModel :=
  runAlter getDB (.resetStatementTimeout state.role) none pg

/-- Embeds `statementTimeoutResource.Read`: `sql.ErrNoRows` is handled as timeout
`"0s"`; a returned row has its `statement_timeout=` prefix trimmed; any
other error is fatal. -/
def statementTimeoutRead (getDB : GetDB) (state : statementTimeoutModel) (pg : PGState) :
    CrudOut statementTimeoutModel :=
  match getDB with
  | .fail e => ⟨[], [], [connMsg e], none, pg⟩
  | .conn _ =>
    match qryStatementTimeout pg state.role with
    | .error .noRows =>
      ⟨[], [(queryStatementTimeout, state.role)], [],
        some { state with timeout := "0s" }, pg⟩
    | .error (.other e) =>
      ⟨[], [(queryStatementTimeout, state.role)], [sqlMsg e], none, pg⟩
    | .ok s =>
      ⟨[], [(queryStatementTimeout, state.role)], [],
        some { state with timeout := trimPrefix "statement_timeout=" s }, pg⟩

/-- Embeds `statementTimeoutResource.ImportState`: `timeout` hardcoded to `"0s"`. -/
def statementTimeoutImportState (id : String) : statementTimeoutModel :=
  ⟨id, "0s"⟩

/-! ### AUDIT resource handlers -/

/-- Embeds `auditResource.Create`. -/
def auditCreate (getDB : GetDB) (plan : auditModel) (pg : PGState) :
    CrudOut auditModel :=
  runAlter getDB (.setAuditLog plan.role plan.auditLogOption) (some plan) pg

/-- Embeds `auditResource.Update`. -/
def auditUpdate (getDB : GetDB) (plan : auditModel) (pg : PGState) :
    CrudOut auditModel :=
  runAlter getDB (.setAuditLog plan.role plan.auditLogOption) (some plan) pg

/-- Embeds `auditResource.Delete`: `ALTER ROLE … RESET pgaudit.log;`. -/
def auditDelete (getDB : GetDB) (state : auditModel) (pg : PGState) :
    CrudOut auditModel :=
  runAlter getDB (.resetAuditLog state.role) none pg

/-- Embeds `auditResource.Read`: query `current_setting('pgaudit.log')` gated on
the stored role existing (any scan error is fatal), overwrite
`auditLogOption` with the observed value. -/
def auditRead (getDB : GetDB) (state : auditModel) (pg : PGState) :
    CrudOut auditModel :=
  match getDB with
  | .fail e => ⟨[], [], [connMsg e], none, pg⟩
  | .conn u =>
    match qryAuditLog pg u state.role with
    | .error _ =>
      ⟨[], [(queryAuditLog, state.role)],
        ["Failed to query pgaudit.log value for role " ++ state.role], none, pg⟩
    | .ok v =>
      ⟨[], [(queryAuditLog, state.role)], [],
        some { state with auditLogOption := v }, pg⟩

/-- Embeds `auditResource.ImportState`: `audit_log_option` hardcoded to
`"none"`. -/
def auditImportState (id : String) : auditModel :=
  ⟨id, "none"⟩

/-! ## Provider configuration (`provider.go`)

A Terraform attribute value is unknown, null, or a concrete value; the
provider model mirrors `pgroleModel`, and `configure` mirrors
`pgroleProvider.Configure`. -/

/-- A `types.String` / `types.Int64` attribute value. -/
inductive TfValue (α : Type) where
  | unknown
  | null
  | val (a : α)
deriving DecidableEq, Repr

/-- Models `IsUnknown()`. -/
def TfValue.isUnknown {α : Type} : TfValue α → Bool
  | .unknown => true
  | _ => false

/-- The `if !v.IsNull() { x = v.Value…() }` extraction pattern: the carried
value when non-null, the given default otherwise. -/
def TfValue.extract {α : Type} (v : TfValue α) (d : α) : α :=
  match v with
  | .val a => a
  | _ => d

/-- Embeds `pgroleModel` from `provider.go`. -/
structure pgroleModel where
  projectID : TfValue String
  region : TfValue String
  inst : TfValue String
  database : TfValue String
  username : TfValue String
  impersonateServiceAccount : TfValue String
  host : TfValue String
  port : TfValue Int
  password : TfValue String
  sslmode : TfValue String
deriving DecidableEq, Repr

/-- The connection factory installed as provider data: which of the three
`F` constructors of the source was chosen, and with which DSN. -/
inductive DBGetter where
  | standardPostgres (dsn : String)
  | databaseWithImpersonation (dsn : String) (targetServiceAccount : String)
  | database (dsn : String)
deriving DecidableEq, Repr

/-- Outcome of `Configure`: the attribute-scoped diagnostics added (path and
summary, in source order) and the factory published as
`ResourceData`/`DataSourceData`, if any. -/
structure ConfigureOut where
  diags : List (String × String)
  dbgetter : Option DBGetter
deriving DecidableEq, Repr

/-- The `postgres://` DSN built for a standard connection. -/
def standardDSN (username password host : String) (port : Int)
    (database sslmode : String) : String :=
  "postgres://" ++ username ++ ":" ++ password ++ "@" ++ host ++ ":" ++
    toString port ++ "/" ++ database ++ "?sslmode=" ++ sslmode

/-- The `gcppostgres://` DSN built for a Cloud SQL connection. -/
def cloudDSN (username projectID region inst database : String) : String :=
  "gcppostgres://" ++ username ++ "@" ++ projectID ++ "/" ++ region ++ "/" ++
    inst ++ "/" ++ database

/-- The unknown-value diagnostics of `Configure`, in source order. -/
def unknownDiags (config : pgroleModel) : List (String × String) :=
  (if config.projectID.isUnknown then [("project_id", "unknown project_id")] else []) ++
  (if config.region.isUnknown then [("region", "unknown region")] else []) ++
  (if config.inst.isUnknown then [("instance", "unknown instance")] else []) ++
  (if config.database.isUnknown then [("database", "unknown database")] else []) ++
  (if config.username.isUnknown then [("username", "unknown username")] else []) ++
  (if config.impersonateServiceAccount.isUnknown then
    [("impersonate_service_account", "unknown impersonate_service_account")] else []) ++
  (if config.host.isUnknown then [("host", "unknown host")] else []) ++
  (if config.port.isUnknown then [("port", "unknown port")] else []) ++
  (if config.password.isUnknown then [("password", "unknown password")] else []) ++
  (if config.sslmode.isUnknown then [("sslmode", "unknown sslmode")] else [])

/-- The missing-field diagnostics of the Cloud SQL branch, in source
order. -/
def cloudMissingDiags (projectID region inst database username : String) :
    List (String × String) :=
  (if projectID = "" then [("project_id", "missing project_id")] else []) ++
  (if region = "" then [("region", "missing region")] else []) ++
  (if inst = "" then [("instance", "missing instance")] else []) ++
  (if database = "" then [("database", "missing database")] else []) ++
  (if username = "" then [("username", "missing username")] else [])

/-- Embeds `pgroleProvider.Configure`: error out on any unknown attribute; extract
values with defaults (`database` → `"postgres"`, `port` → `5432`, `sslmode`
→ `"disable"`, strings → `""`); if `host` is non-empty install the standard
getter over a `postgres://` DSN with no further validation, otherwise
require the five Cloud SQL fields to be non-empty and install the
(optionally impersonating) Cloud SQL getter over a `gcppostgres://` DSN. -/
def configure (config : pgroleModel) : ConfigureOut :=
  let ud := unknownDiags config
  if ud ≠ [] then ⟨ud, none⟩
  else
    let projectID := config.projectID.extract ""
    let region := config.region.extract ""
    let inst := config.inst.extract ""
    let database := config.database.extract "postgres"
    let username := config.username.extract ""
    let impersonateServiceAccount := config.impersonateServiceAccount.extract ""
    let host := config.host.extract ""
    let port := config.port.extract 5432
    let password := config.password.extract ""
    let sslmode := config.sslmode.extract "disable"
    if host ≠ "" then
      ⟨[], some (.standardPostgres (standardDSN username password host port database sslmode))⟩
    else
      let md := cloudMissingDiags projectID region inst database username
      if md ≠ [] then ⟨md, none⟩
      else
        let url := cloudDSN username projectID region inst database
        if impersonateServiceAccount ≠ "" then
          ⟨[], some (.databaseWithImpersonation url impersonateServiceAccount)⟩
        else
          ⟨[], some (.database url)⟩

/-- Returns `true` when no attribute of the configuration is unknown (the
configurations that pass `Configure`'s unknown-value checks). -/
def noUnknown (config : pgroleModel) : Bool :=
  !config.projectID.isUnknown && !config.region.isUnknown && !config.inst.isUnknown &&
  !config.database.isUnknown && !config.username.isUnknown &&
  !config.impersonateServiceAccount.isUnknown && !config.host.isUnknown &&
  !config.port.isUnknown && !config.password.isUnknown && !config.sslmode.isUnknown

/-! ## Helper lemmas -/

lemma lookupRole_updateRole (rs : List (String × RoleRow)) (name : String)
    (f : RoleRow → RoleRow) :
    lookupRole (updateRole rs name f) name = (lookupRole rs name).map f := by
  induction rs with
  | nil => rfl
  | cons hd tl ih =>
    obtain ⟨n, r⟩ := hd
    by_cases h : n = name
    · simp [updateRole, lookupRole, h]
    · simp [updateRole, lookupRole, h, ih]

lemma updateRole_names (rs : List (String × RoleRow)) (name : String)
    (f : RoleRow → RoleRow) :
    (updateRole rs name f).map Prod.fst = rs.map Prod.fst := by
  induction rs with
  | nil => rfl
  | cons hd tl ih =>
    obtain ⟨n, r⟩ := hd
    by_cases h : n = name
    · simp [updateRole, h]
    · simp [updateRole, h, ih]

lemma pgExec_preserves_names (pg pg' : PGState) (stmt : PgStmt)
    (h : pgExec pg stmt = .ok pg') :
    pg'.roles.map Prod.fst = pg.roles.map Prod.fst := by
  unfold pgExec at h
  cases hl : lookupRole pg.roles (stmtRole stmt) with
  | none => rw [hl] at h; cases h
  | some r =>
    rw [hl] at h
    cases h
    simp [updateRole_names]

lemma entryMatches_self (p v : String) : entryMatches p ((p ++ "=") ++ v) = true := by
  simp [entryMatches, List.isPrefixOf_iff_prefix, String.data_append]

lemma findConfigEntry_setConfigEntry (cfg : List String) (p v : String) :
    findConfigEntry (setConfigEntry cfg p v) p = some ((p ++ "=") ++ v) := by
  induction cfg with
  | nil => simp [setConfigEntry, findConfigEntry, List.find?, entryMatches_self]
  | cons e rest ih =>
    by_cases h : entryMatches p e = true
    · simp [setConfigEntry, h, findConfigEntry, List.find?, entryMatches_self]
    · simp only [setConfigEntry, h]
      simp only [findConfigEntry, List.find?, h, if_neg] at ih ⊢
      simp [h, ih]

lemma trimPrefix_append (p t : String) : trimPrefix p (p ++ t) = t := by
  unfold trimPrefix
  rw [String.data_append]
  simp only [List.isPrefixOf_iff_prefix, List.prefix_append, if_pos, List.drop_left]

lemma runAlter_fail {σ : Type} (e : String) (stmt : PgStmt) (s : Option σ) (pg : PGState) :
    runAlter (.fail e) stmt s pg = ⟨[], [], [connMsg e], none, pg⟩ := rfl

lemma runAlter_execError {σ : Type} (u err : String) (stmt : PgStmt) (s : Option σ)
    (pg : PGState) (h : pgExec pg stmt = .error err) :
    runAlter (.conn u) stmt s pg = ⟨[render stmt], [], [sqlMsg err], none, pg⟩ := by
  simp [runAlter, h]

lemma runAlter_execTrace_conn {σ : Type} (u : String) (stmt : PgStmt) (s : Option σ)
    (pg : PGState) :
    (runAlter (.conn u) stmt s pg).execTrace = [render stmt] := by
  simp only [runAlter]
  cases pgExec pg stmt <;> rfl

lemma runAlter_queryTrace {σ : Type} (g : GetDB) (stmt : PgStmt) (s : Option σ)
    (pg : PGState) :
    (runAlter g stmt s pg).queryTrace = [] := by
  cases g with
  | fail e => rfl
  | conn u =>
    simp only [runAlter]
    cases pgExec pg stmt <;> rfl

lemma runAlter_preserves_names {σ : Type} (g : GetDB) (stmt : PgStmt) (s : Option σ)
    (pg : PGState) :
    (runAlter g stmt s pg).pg.roles.map Prod.fst = pg.roles.map Prod.fst := by
  cases g with
  | fail e => rfl
  | conn u =>
    cases hx : pgExec pg stmt with
    | error e => simp [runAlter, hx]
    | ok pg2 =>
      simp only [runAlter, hx]
      exact pgExec_preserves_names pg pg2 stmt hx

lemma runAlter_success {σ : Type} (g : GetDB) (stmt : PgStmt) (s : Option σ)
    (pg : PGState) (h : (runAlter g stmt s pg).diags = []) :
    (runAlter g stmt s pg).newState = s := by
  cases g with
  | fail e => simp [runAlter] at h
  | conn u =>
    simp only [runAlter] at h ⊢
    cases hx : pgExec pg stmt with
    | error e => rw [hx] at h; simp at h
    | ok pg2 => rfl

/-! ## Claims -/

/-- Claim C8: for every resource, `ImportState` takes the role name as
the import ID, writes it into the `role` attribute, and sets the value
attribute to the resource's hardcoded placeholder default — `false` for
bypassrls and replication, `-1` for connection_limit, `"0s"` for
statement_timeout, `"none"` for audit. -/
theorem claim_C8 (id : String) :
    bypassrlsImportState id = { role := id, enabled := false } ∧
    replicationImportState id = { role := id, enabled := false } ∧
    connectionLimitImportState id = { role := id, connectionLimit := -1 } ∧
    statementTimeoutImportState id = { role := id, timeout := "0s" } ∧
    auditImportState id = { role := id, auditLogOption := "none" } :=
  ⟨rfl, rfl, rfl, rfl, rfl⟩

/-- Claim C10: `replicationResource.Read` decodes the prior state into
`bypassrlsModel`, a different resource's model type, but since the two
structs carry identical fields and `tfsdk` tags this is behaviorally
identical to decoding into `replicationModel`: on every input the two
handlers produce the same traces, diagnostics and state, the query issued
is `rolreplication` for the stored role, and the written state keeps the
stored role and carries the observed replication flag. -/
theorem claim_C10 (g : GetDB) (raw : TfRawState) (pg : PGState) :
    replicationRead g raw pg = replicationReadOwnModel g raw pg ∧
    ((replicationRead g raw pg).newState = none ∨
      ∃ b, qryReplication pg raw.role = .ok b ∧
        (replicationRead g raw pg).newState = some { role := raw.role, enabled := b } ∧
        (replicationRead g raw pg).queryTrace = [(queryReplication, raw.role)]) := by
  constructor
  · cases g with
    | fail e => rfl
    | conn u =>
      cases hq : qryReplication pg raw.role <;>
        simp [replicationRead, replicationReadOwnModel, decodeBypassrls,
          decodeReplication, encodeBypassrls, encodeReplication, hq]
  · cases g with
    | fail e => left; rfl
    | conn u =>
      cases hq : qryReplication pg raw.role with
      | error e =>
        left
        simp [replicationRead, decodeBypassrls, hq]
      | ok b =>
        right
        exact ⟨b, rfl, by simp [replicationRead, decodeBypassrls, encodeBypassrls, hq],
          by simp [replicationRead, decodeBypassrls, hq]⟩

/-- Claim C5: on a live connection, each resource's `Delete` executes
exactly one statement, the `ALTER ROLE` that resets the attribute to
PostgreSQL's default — `NOBYPASSRLS`, `NOREPLICATION`, `CONNECTION LIMIT
-1`, `RESET statement_timeout`, `RESET pgaudit.log` — and never issues a
`DROP ROLE` or otherwise removes the role: the set of role names in the
catalog is unchanged by every `Delete`, whether it succeeds or fails. -/
theorem claim_C5 (u : String) (pg : PGState) (s1 : bypassrlsModel)
    (s2 : replicationModel) (s3 : connectionLimitModel)
    (s4 : statementTimeoutModel) (s5 : auditModel) :
    (bypassrlsDelete (.conn u) s1 pg).execTrace = [sqlDisableBypassRLS s1.role] ∧
    (replicationDelete (.conn u) s2 pg).execTrace = [sqlDisableReplication s2.role] ∧
    (connectionLimitDelete (.conn u) s3 pg).execTrace = [sqlSetConnectionLimit s3.role (-1)] ∧
    (statementTimeoutDelete (.conn u) s4 pg).execTrace = [sqlResetStatementTimeout s4.role] ∧
    (auditDelete (.conn u) s5 pg).execTrace = [sqlResetAuditLog s5.role] ∧
    (bypassrlsDelete (.conn u) s1 pg).pg.roles.map Prod.fst = pg.roles.map Prod.fst ∧
    (replicationDelete (.conn u) s2 pg).pg.roles.map Prod.fst = pg.roles.map Prod.fst ∧
    (connectionLimitDelete (.conn u) s3 pg).pg.roles.map Prod.fst = pg.roles.map Prod.fst ∧
    (statementTimeoutDelete (.conn u) s4 pg).pg.roles.map Prod.fst = pg.roles.map Prod.fst ∧
    (auditDelete (.conn u) s5 pg).pg.roles.map Prod.fst = pg.roles.map Prod.fst :=
  ⟨runAlter_execTrace_conn u _ none pg, runAlter_execTrace_conn u _ none pg,
    runAlter_execTrace_conn u _ none pg, runAlter_execTrace_conn u _ none pg,
    runAlter_execTrace_conn u _ none pg,
    runAlter_preserves_names _ _ none pg, runAlter_preserves_names _ _ none pg,
    runAlter_preserves_names _ _ none pg, runAlter_preserves_names _ _ none pg,
    runAlter_preserves_names _ _ none pg⟩

/-- Claim C6: for every resource, when `Create` or `Update` runs without
any diagnostic (connection opened and the single `ALTER ROLE` executed
without error), the state written is the plan verbatim, and no read-back
query is issued by these handlers on any input. -/
theorem claim_C6 (g : GetDB) (pg : PGState) (p1 : bypassrlsModel)
    (p2 : replicationModel) (p3 : connectionLimitModel)
    (p4 : statementTimeoutModel) (p5 : auditModel)
    (h1 : (bypassrlsCreate g p1 pg).diags = [])
    (h2 : (bypassrlsUpdate g p1 pg).diags = [])
    (h3 : (replicationCreate g p2 pg).diags = [])
    (h4 : (replicationUpdate g p2 pg).diags = [])
    (h5 : (connectionLimitCreate g p3 pg).diags = [])
    (h6 : (connectionLimitUpdate g p3 pg).diags = [])
    (h7 : (statementTimeoutCreate g p4 pg).diags = [])
    (h8 : (statementTimeoutUpdate g p4 pg).diags = [])
    (h9 : (auditCreate g p5 pg).diags = [])
    (h10 : (auditUpdate g p5 pg).diags = []) :
    (bypassrlsCreate g p1 pg).newState = some p1 ∧
    (bypassrlsUpdate g p1 pg).newState = some p1 ∧
    (replicationCreate g p2 pg).newState = some p2 ∧
    (replicationUpdate g p2 pg).newState = some p2 ∧
    (connectionLimitCreate g p3 pg).newState = some p3 ∧
    (connectionLimitUpdate g p3 pg).newState = some p3 ∧
    (statementTimeoutCreate g p4 pg).newState = some p4 ∧
    (statementTimeoutUpdate g p4 pg).newState = some p4 ∧
    (auditCreate g p5 pg).newState = some p5 ∧
    (auditUpdate g p5 pg).newState = some p5 ∧
    (bypassrlsCreate g p1 pg).queryTrace = [] ∧
    (bypassrlsUpdate g p1 pg).queryTrace = [] ∧
    (replicationCreate g p2 pg).queryTrace = [] ∧
    (replicationUpdate g p2 pg).queryTrace = [] ∧
    (connectionLimitCreate g p3 pg).queryTrace = [] ∧
    (connectionLimitUpdate g p3 pg).queryTrace = [] ∧
    (statementTimeoutCreate g p4 pg).queryTrace = [] ∧
    (statementTimeoutUpdate g p4 pg).queryTrace = [] ∧
    (auditCreate g p5 pg).queryTrace = [] ∧
    (auditUpdate g p5 pg).queryTrace = [] :=
  ⟨runAlter_success g _ _ pg h1, runAlter_success g _ _ pg h2,
    runAlter_success g _ _ pg h3, runAlter_success g _ _ pg h4,
    runAlter_success g _ _ pg h5, runAlter_success g _ _ pg h6,
    runAlter_success g _ _ pg h7, runAlter_success g _ _ pg h8,
    runAlter_success g _ _ pg h9, runAlter_success g _ _ pg h10,
    runAlter_queryTrace g _ _ pg, runAlter_queryTrace g _ _ pg,
    runAlter_queryTrace g _ _ pg, runAlter_queryTrace g _ _ pg,
    runAlter_queryTrace g _ _ pg, runAlter_queryTrace g _ _ pg,
    runAlter_queryTrace g _ _ pg, runAlter_queryTrace g _ _ pg,
    runAlter_queryTrace g _ _ pg, runAlter_queryTrace g _ _ pg⟩

/-- Witness for C6 at a concrete input: the database holds role `r`, the
provider is connected as `postgres`, and every Create/Update succeeds. -/
theorem claim_C6_witness :
    (bypassrlsCreate (.conn "postgres") ⟨"r", true⟩
      ⟨[("r", ⟨false, false, -1, []⟩)], "none"⟩).newState = some ⟨"r", true⟩ ∧
    (auditUpdate (.conn "postgres") ⟨"r", "all"⟩
      ⟨[("r", ⟨false, false, -1, []⟩)], "none"⟩).newState = some ⟨"r", "all"⟩ :=
  ⟨(claim_C6 (.conn "postgres") ⟨[("r", ⟨false, false, -1, []⟩)], "none"⟩
      ⟨"r", true⟩ ⟨"r", true⟩ ⟨"r", 7⟩ ⟨"r", "100s"⟩ ⟨"r", "all"⟩
      (by decide) (by decide) (by decide) (by decide) (by decide)
      (by decide) (by decide) (by decide) (by decide) (by decide)).1,
    (claim_C6 (.conn "postgres") ⟨[("r", ⟨false, false, -1, []⟩)], "none"⟩
      ⟨"r", true⟩ ⟨"r", true⟩ ⟨"r", 7⟩ ⟨"r", "100s"⟩ ⟨"r", "all"⟩
      (by decide) (by decide) (by decide) (by decide) (by decide)
      (by decide) (by decide) (by decide) (by decide) (by decide)).2.2.2.2.2.2.2.2.2.1⟩

/-- Claim C9: every resource operation aborts atomically on failure.  If the
connection factory fails, the handler adds exactly the connection
diagnostic, executes no SQL at all, writes no state, and leaves the
database untouched (first twenty conjuncts, one per handler).  If the
single `ALTER ROLE` fails — here, the stored role does not exist — the
mutating handler adds exactly the SQL diagnostic, has attempted only that
one statement, issues no further SQL, writes no state, and the database is
unchanged (next fifteen conjuncts).  If a fatal read's query scan fails,
the handler adds its query diagnostic, writes no state, and the database is
unchanged (last four conjuncts). -/
theorem claim_C9 (e u rR : String) (b : Bool) (n : Int) (t v : String)
    (raw : TfRawState) (pgA pgR : PGState) (p1 : bypassrlsModel)
    (p2 : replicationModel) (p3 : connectionLimitModel)
    (p4 : statementTimeoutModel) (p5 : auditModel)
    (hR : lookupRole pgR.roles rR = none) :
    bypassrlsCreate (.fail e) p1 pgA = ⟨[], [], [connMsg e], none, pgA⟩ ∧
    bypassrlsUpdate (.fail e) p1 pgA = ⟨[], [], [connMsg e], none, pgA⟩ ∧
    bypassrlsDelete (.fail e) p1 pgA = ⟨[], [], [connMsg e], none, pgA⟩ ∧
    replicationCreate (.fail e) p2 pgA = ⟨[], [], [connMsg e], none, pgA⟩ ∧
    replicationUpdate (.fail e) p2 pgA = ⟨[], [], [connMsg e], none, pgA⟩ ∧
    replicationDelete (.fail e) p2 pgA = ⟨[], [], [connMsg e], none, pgA⟩ ∧
    connectionLimitCreate (.fail e) p3 pgA = ⟨[], [], [connMsg e], none, pgA⟩ ∧
    connectionLimitUpdate (.fail e) p3 pgA = ⟨[], [], [connMsg e], none, pgA⟩ ∧
    connectionLimitDelete (.fail e) p3 pgA = ⟨[], [], [connMsg e], none, pgA⟩ ∧
    statementTimeoutCreate (.fail e) p4 pgA = ⟨[], [], [connMsg e], none, pgA⟩ ∧
    statementTimeoutUpdate (.fail e) p4 pgA = ⟨[], [], [connMsg e], none, pgA⟩ ∧
    statementTimeoutDelete (.fail e) p4 pgA = ⟨[], [], [connMsg e], none, pgA⟩ ∧
    auditCreate (.fail e) p5 pgA = ⟨[], [], [connMsg e], none, pgA⟩ ∧
    auditUpdate (.fail e) p5 pgA = ⟨[], [], [connMsg e], none, pgA⟩ ∧
    auditDelete (.fail e) p5 pgA = ⟨[], [], [connMsg e], none, pgA⟩ ∧
    bypassrlsRead (.fail e) p1 pgA = ⟨[], [], [connMsg e], none, pgA⟩ ∧
    replicationRead (.fail e) raw pgA = ⟨[], [], [connMsg e], none, pgA⟩ ∧
    connectionLimitRead (.fail e) p3 pgA = ⟨[], [], [connMsg e], none, pgA⟩ ∧
    statementTimeoutRead (.fail e) p4 pgA = ⟨[], [], [connMsg e], none, pgA⟩ ∧
    auditRead (.fail e) p5 pgA = ⟨[], [], [connMsg e], none, pgA⟩ ∧
    bypassrlsCreate (.conn u) ⟨rR, b⟩ pgR = ⟨[render (.alterBypassRLS rR b)], [],
      [sqlMsg ("role " ++ goQuote rR ++ " does not exist")], none, pgR⟩ ∧
    bypassrlsUpdate (.conn u) ⟨rR, b⟩ pgR = ⟨[render (.alterBypassRLS rR b)], [],
      [sqlMsg ("role " ++ goQuote rR ++ " does not exist")], none, pgR⟩ ∧
    bypassrlsDelete (.conn u) ⟨rR, b⟩ pgR = ⟨[render (.alterBypassRLS rR false)], [],
      [sqlMsg ("role " ++ goQuote rR ++ " does not exist")], none, pgR⟩ ∧
    replicationCreate (.conn u) ⟨rR, b⟩ pgR = ⟨[render (.alterReplication rR b)], [],
      [sqlMsg ("role " ++ goQuote rR ++ " does not exist")], none, pgR⟩ ∧
    replicationUpdate (.conn u) ⟨rR, b⟩ pgR = ⟨[render (.alterReplication rR b)], [],
      [sqlMsg ("role " ++ goQuote rR ++ " does not exist")], none, pgR⟩ ∧
    replicationDelete (.conn u) ⟨rR, b⟩ pgR = ⟨[render (.alterReplication rR false)], [],
      [sqlMsg ("role " ++ goQuote rR ++ " does not exist")], none, pgR⟩ ∧
    connectionLimitCreate (.conn u) ⟨rR, n⟩ pgR = ⟨[render (.alterConnLimit rR n)], [],
      [sqlMsg ("role " ++ goQuote rR ++ " does not exist")], none, pgR⟩ ∧
    connectionLimitUpdate (.conn u) ⟨rR, n⟩ pgR = ⟨[render (.alterConnLimit rR n)], [],
      [sqlMsg ("role " ++ goQuote rR ++ " does not exist")], none, pgR⟩ ∧
    connectionLimitDelete (.conn u) ⟨rR, n⟩ pgR = ⟨[render (.alterConnLimit rR (-1))], [],
      [sqlMsg ("role " ++ goQuote rR ++ " does not exist")], none, pgR⟩ ∧
    statementTimeoutCreate (.conn u) ⟨rR, t⟩ pgR = ⟨[render (.setStatementTimeout rR t)], [],
      [sqlMsg ("role " ++ goQuote rR ++ " does not exist")], none, pgR⟩ ∧
    statementTimeoutUpdate (.conn u) ⟨rR, t⟩ pgR = ⟨[render (.setStatementTimeout rR t)], [],
      [sqlMsg ("role " ++ goQuote rR ++ " does not exist")], none, pgR⟩ ∧
    statementTimeoutDelete (.conn u) ⟨rR, t⟩ pgR = ⟨[render (.resetStatementTimeout rR)], [],
      [sqlMsg ("role " ++ goQuote rR ++ " does not exist")], none, pgR⟩ ∧
    auditCreate (.conn u) ⟨rR, v⟩ pgR = ⟨[render (.setAuditLog rR v)], [],
      [sqlMsg ("role " ++ goQuote rR ++ " does not exist")], none, pgR⟩ ∧
    auditUpdate (.conn u) ⟨rR, v⟩ pgR = ⟨[render (.setAuditLog rR v)], [],
      [sqlMsg ("role " ++ goQuote rR ++ " does not exist")], none, pgR⟩ ∧
    auditDelete (.conn u) ⟨rR, v⟩ pgR = ⟨[render (.resetAuditLog rR)], [],
      [sqlMsg ("role " ++ goQuote rR ++ " does not exist")], none, pgR⟩ ∧
    bypassrlsRead (.conn u) ⟨rR, b⟩ pgR = ⟨[], [(queryBypassRLS, rR)],
      ["Failed to query BYPASSRLS status for role " ++ rR], none, pgR⟩ ∧
    replicationRead (.conn u) ⟨rR, b⟩ pgR = ⟨[], [(queryReplication, rR)],
      ["Failed to query REPLICATION status for role " ++ rR], none, pgR⟩ ∧
    connectionLimitRead (.conn u) ⟨rR, n⟩ pgR = ⟨[], [(queryConnectionLimit, rR)],
      ["Failed to query CONNECTION LIMIT value for role " ++ rR], none, pgR⟩ ∧
    auditRead (.conn u) ⟨rR, v⟩ pgR = ⟨[], [(queryAuditLog, rR)],
      ["Failed to query pgaudit.log value for role " ++ rR], none, pgR⟩ := by
  have hx : ∀ stmt : PgStmt, stmtRole stmt = rR → pgExec pgR stmt =
      .error ("role " ++ goQuote rR ++ " does not exist") := by
    intro stmt hs
    simp [pgExec, hs, hR]
  refine ⟨rfl, rfl, rfl, rfl, rfl, rfl, rfl, rfl, rfl, rfl, rfl, rfl, rfl, rfl, rfl,
    rfl, rfl, rfl, rfl, rfl, ?_, ?_, ?_, ?_, ?_, ?_, ?_, ?_, ?_, ?_, ?_, ?_, ?_, ?_, ?_,
    ?_, ?_, ?_, ?_⟩
  · exact runAlter_execError u _ _ _ pgR (hx _ rfl)
  · exact runAlter_execError u _ _ _ pgR (hx _ rfl)
  · exact runAlter_execError u _ _ _ pgR (hx _ rfl)
  · exact runAlter_execError u _ _ _ pgR (hx _ rfl)
  · exact runAlter_execError u _ _ _ pgR (hx _ rfl)
  · exact runAlter_execError u _ _ _ pgR (hx _ rfl)
  · exact runAlter_execError u _ _ _ pgR (hx _ rfl)
  · exact runAlter_execError u _ _ _ pgR (hx _ rfl)
  · exact runAlter_execError u _ _ _ pgR (hx _ rfl)
  · exact runAlter_execError u _ _ _ pgR (hx _ rfl)
  · exact runAlter_execError u _ _ _ pgR (hx _ rfl)
  · exact runAlter_execError u _ _ _ pgR (hx _ rfl)
  · exact runAlter_execError u _ _ _ pgR (hx _ rfl)
  · exact runAlter_execError u _ _ _ pgR (hx _ rfl)
  · exact runAlter_execError u _ _ _ pgR (hx _ rfl)
  · simp [bypassrlsRead, qryBypassRLS, hR]
  · simp [replicationRead, decodeBypassrls, qryReplication, hR]
  · simp [connectionLimitRead, qryConnectionLimit, hR]
  · simp [auditRead, qryAuditLog, hR]

/-- Witness for C9 at a concrete input: an empty catalog, so the stored
role `ghost` does not exist; the conjuncts are instantiated via the main
theorem. -/
theorem claim_C9_witness :
    bypassrlsCreate (.fail "boom") ⟨"x", true⟩ ⟨[], "none"⟩ =
      ⟨[], [], [connMsg "boom"], none, ⟨[], "none"⟩⟩ :=
  (claim_C9 "boom" "postgres" "ghost" true 5 "100s" "all" ⟨"ghost", false⟩
    ⟨[], "none"⟩ ⟨[], "none"⟩ ⟨"x", true⟩ ⟨"x", true⟩ ⟨"x", 5⟩ ⟨"x", "100s"⟩
    ⟨"x", "all"⟩ rfl).1

/-- Claim C7: when the statement_timeout read query returns no row
(`sql.ErrNoRows`), `Read` succeeds and sets the timeout to `"0s"`; when it
returns a row, the timeout becomes the row's value with the
`statement_timeout=` prefix stripped.  The other four resources' `Read`s
treat a missing row as fatal: no state is written and a diagnostic is
added. -/
theorem claim_C7 (u : String)
    (r1 t1 : String) (pg1 : PGState)
    (h1 : qryStatementTimeout pg1 r1 = .error .noRows)
    (r2 t2 s2 : String) (pg2 : PGState)
    (h2 : qryStatementTimeout pg2 r2 = .ok s2)
    (r3 : String) (b : Bool) (n : Int) (v3 : String) (pg3 : PGState)
    (h3 : lookupRole pg3.roles r3 = none) :
    statementTimeoutRead (.conn u) ⟨r1, t1⟩ pg1 =
      ⟨[], [(queryStatementTimeout, r1)], [], some ⟨r1, "0s"⟩, pg1⟩ ∧
    statementTimeoutRead (.conn u) ⟨r2, t2⟩ pg2 =
      ⟨[], [(queryStatementTimeout, r2)], [],
        some ⟨r2, trimPrefix "statement_timeout=" s2⟩, pg2⟩ ∧
    (bypassrlsRead (.conn u) ⟨r3, b⟩ pg3).newState = none ∧
    (bypassrlsRead (.conn u) ⟨r3, b⟩ pg3).diags ≠ [] ∧
    (replicationRead (.conn u) ⟨r3, b⟩ pg3).newState = none ∧
    (replicationRead (.conn u) ⟨r3, b⟩ pg3).diags ≠ [] ∧
    (connectionLimitRead (.conn u) ⟨r3, n⟩ pg3).newState = none ∧
    (connectionLimitRead (.conn u) ⟨r3, n⟩ pg3).diags ≠ [] ∧
    (auditRead (.conn u) ⟨r3, v3⟩ pg3).newState = none ∧
    (auditRead (.conn u) ⟨r3, v3⟩ pg3).diags ≠ [] := by
  refine ⟨?_, ?_, ?_, ?_, ?_, ?_, ?_, ?_, ?_, ?_⟩
  · simp [statementTimeoutRead, h1]
  · simp [statementTimeoutRead, h2]
  · simp [bypassrlsRead, qryBypassRLS, h3]
  · simp [bypassrlsRead, qryBypassRLS, h3]
  · simp [replicationRead, decodeBypassrls, qryReplication, h3]
  · simp [replicationRead, decodeBypassrls, qryReplication, h3]
  · simp [connectionLimitRead, qryConnectionLimit, h3]
  · simp [connectionLimitRead, qryConnectionLimit, h3]
  · simp [auditRead, qryAuditLog, h3]
  · simp [auditRead, qryAuditLog, h3]

/-- Witness for C7 at concrete inputs: a role with no `statement_timeout`
entry for the no-row case, a role whose `rolconfig` holds
`statement_timeout=100s` for the found-row case, and an absent role for the
fatal-read case. -/
theorem claim_C7_witness :
    statementTimeoutRead (.conn "postgres") ⟨"r", "0s"⟩
      ⟨[("r", ⟨false, false, -1, []⟩)], "none"⟩ =
      ⟨[], [(queryStatementTimeout, "r")], [], some ⟨"r", "0s"⟩,
        ⟨[("r", ⟨false, false, -1, []⟩)], "none"⟩⟩ :=
  (claim_C7 "postgres" "r" "0s" ⟨[("r", ⟨false, false, -1, []⟩)], "none"⟩ rfl
    "r" "0s" "statement_timeout=100s"
    ⟨[("r", ⟨false, false, -1, ["statement_timeout=100s"]⟩)], "none"⟩ rfl
    "ghost" true 5 "all" ⟨[], "none"⟩ rfl).1

lemma bypassrls_roundtrip (u : String) (p : bypassrlsModel) (pg : PGState)
    (row : RoleRow) (hrow : lookupRole pg.roles p.role = some row) :
    (bypassrlsRead (.conn u) p (bypassrlsCreate (.conn u) p pg).pg).newState = some p := by
  have hcreate : (bypassrlsCreate (.conn u) p pg).pg =
      { pg with roles := updateRole pg.roles p.role (stmtEffect (.alterBypassRLS p.role p.enabled)) } := by
    simp [bypassrlsCreate, runAlter, pgExec, stmtRole, hrow]
  rw [hcreate]
  simp [bypassrlsRead, qryBypassRLS, lookupRole_updateRole, hrow, stmtEffect]

lemma replication_roundtrip (u : String) (p : replicationModel) (pg : PGState)
    (row : RoleRow) (hrow : lookupRole pg.roles p.role = some row) :
    (replicationRead (.conn u) (encodeReplication p)
      (replicationCreate (.conn u) p pg).pg).newState = some (encodeReplication p) := by
  have hcreate : (replicationCreate (.conn u) p pg).pg =
      { pg with roles := updateRole pg.roles p.role (stmtEffect (.alterReplication p.role p.enabled)) } := by
    simp [replicationCreate, runAlter, pgExec, stmtRole, hrow]
  rw [hcreate]
  simp [replicationRead, decodeBypassrls, encodeBypassrls, encodeReplication,
    qryReplication, lookupRole_updateRole, hrow, stmtEffect]

lemma connectionLimit_roundtrip (u : String) (p : connectionLimitModel) (pg : PGState)
    (row : RoleRow) (hrow : lookupRole pg.roles p.role = some row) :
    (connectionLimitRead (.conn u) p
      (connectionLimitCreate (.conn u) p pg).pg).newState = some p := by
  have hcreate : (connectionLimitCreate (.conn u) p pg).pg =
      { pg with roles := updateRole pg.roles p.role (stmtEffect (.alterConnLimit p.role p.connectionLimit)) } := by
    simp [connectionLimitCreate, runAlter, pgExec, stmtRole, hrow]
  rw [hcreate]
  simp [connectionLimitRead, qryConnectionLimit, lookupRole_updateRole, hrow, stmtEffect]

lemma statementTimeout_roundtrip (u : String) (p : statementTimeoutModel) (pg : PGState)
    (row : RoleRow) (hrow : lookupRole pg.roles p.role = some row) :
    (statementTimeoutRead (.conn u) p
      (statementTimeoutCreate (.conn u) p pg).pg).newState = some p := by
  have hcreate : (statementTimeoutCreate (.conn u) p pg).pg =
      { pg with roles := updateRole pg.roles p.role (stmtEffect (.setStatementTimeout p.role p.timeout)) } := by
    simp [statementTimeoutCreate, runAlter, pgExec, stmtRole, hrow]
  have heq : ("statement_timeout" ++ "=" : String) = "statement_timeout=" := by decide
  rw [hcreate]
  simp [statementTimeoutRead, qryStatementTimeout, lookupRole_updateRole, hrow,
    stmtEffect, findConfigEntry_setConfigEntry, heq, trimPrefix_append]

lemma audit_read_after_create (u : String) (p : auditModel) (pg : PGState)
    (row : RoleRow) (hrow : lookupRole pg.roles p.role = some row) :
    (auditRead (.conn u) p (auditCreate (.conn u) p pg).pg).newState =
      some ⟨p.role, currentSetting (auditCreate (.conn u) p pg).pg u "pgaudit.log"⟩ := by
  have hcreate : (auditCreate (.conn u) p pg).pg =
      { pg with roles := updateRole pg.roles p.role (stmtEffect (.setAuditLog p.role p.auditLogOption)) } := by
    simp [auditCreate, runAlter, pgExec, stmtRole, hrow]
  rw [hcreate]
  simp [auditRead, qryAuditLog, lookupRole_updateRole, hrow]

/-- Claim C1 counterexample: the audit resource does not round-trip.  With
roles `admin` (the provider's connection user) and `r` in the catalog and
server default `pgaudit.log = none`, `Create` of `⟨r, all⟩` succeeds (it
runs `ALTER ROLE "r" SET pgaudit.log = 'all';`), yet the following `Read`
succeeds and observes `"none"` — the reading session's
`current_setting('pgaudit.log')`, which is derived from `admin`'s settings,
not the attribute just written on `r`. -/
theorem claim_C1_counterexample :
    (auditCreate (.conn "admin") ⟨"r", "all"⟩
      ⟨[("admin", ⟨false, false, -1, []⟩), ("r", ⟨false, false, -1, []⟩)], "none"⟩).diags
      = [] ∧
    (auditRead (.conn "admin") ⟨"r", "all"⟩
      (auditCreate (.conn "admin") ⟨"r", "all"⟩
        ⟨[("admin", ⟨false, false, -1, []⟩), ("r", ⟨false, false, -1, []⟩)], "none"⟩).pg).newState
      = some ⟨"r", "none"⟩ ∧
    (⟨"r", "none"⟩ : auditModel) ≠ ⟨"r", "all"⟩ := by
  refine ⟨rfl, rfl, by decide⟩

/-- Claim C1 (amended): `Create` then `Read` round-trips for the four
resources whose `Read` queries per-role catalog data — bypassrls,
replication, connection_limit and statement_timeout — whenever the role
exists.  The audit resource instead reads back the *session's*
`current_setting('pgaudit.log')` of the provider's connection user, so its
`Read` yields the value just written only when that session setting happens
to equal it. -/
theorem claim_C1 (u : String) (pg : PGState)
    (p1 : bypassrlsModel) (h1 : lookupRole pg.roles p1.role ≠ none)
    (p2 : replicationModel) (h2 : lookupRole pg.roles p2.role ≠ none)
    (p3 : connectionLimitModel) (h3 : lookupRole pg.roles p3.role ≠ none)
    (p4 : statementTimeoutModel) (h4 : lookupRole pg.roles p4.role ≠ none)
    (p5 : auditModel) (h5 : lookupRole pg.roles p5.role ≠ none) :
    (bypassrlsRead (.conn u) p1 (bypassrlsCreate (.conn u) p1 pg).pg).newState = some p1 ∧
    (replicationRead (.conn u) (encodeReplication p2)
      (replicationCreate (.conn u) p2 pg).pg).newState = some (encodeReplication p2) ∧
    (connectionLimitRead (.conn u) p3
      (connectionLimitCreate (.conn u) p3 pg).pg).newState = some p3 ∧
    (statementTimeoutRead (.conn u) p4
      (statementTimeoutCreate (.conn u) p4 pg).pg).newState = some p4 ∧
    (auditRead (.conn u) p5 (auditCreate (.conn u) p5 pg).pg).newState =
      some ⟨p5.role, currentSetting (auditCreate (.conn u) p5 pg).pg u "pgaudit.log"⟩ := by
  obtain ⟨row1, hrow1⟩ := Option.ne_none_iff_exists'.mp h1
  obtain ⟨row2, hrow2⟩ := Option.ne_none_iff_exists'.mp h2
  obtain ⟨row3, hrow3⟩ := Option.ne_none_iff_exists'.mp h3
  obtain ⟨row4, hrow4⟩ := Option.ne_none_iff_exists'.mp h4
  obtain ⟨row5, hrow5⟩ := Option.ne_none_iff_exists'.mp h5
  exact ⟨bypassrls_roundtrip u p1 pg row1 hrow1,
    replication_roundtrip u p2 pg row2 hrow2,
    connectionLimit_roundtrip u p3 pg row3 hrow3,
    statementTimeout_roundtrip u p4 pg row4 hrow4,
    audit_read_after_create u p5 pg row5 hrow5⟩

/-- Witness for the amended C1 at a concrete input: one role `r`, written
with `enabled = true`, read back as `true`. -/
theorem claim_C1_witness :
    (bypassrlsRead (.conn "postgres") ⟨"r", true⟩
      (bypassrlsCreate (.conn "postgres") ⟨"r", true⟩
        ⟨[("r", ⟨false, false, -1, []⟩)], "none"⟩).pg).newState = some ⟨"r", true⟩ :=
  (claim_C1 "postgres" ⟨[("r", ⟨false, false, -1, []⟩)], "none"⟩
    ⟨"r", true⟩ (by decide) ⟨"r", true⟩ (by decide) ⟨"r", 5⟩ (by decide)
    ⟨"r", "100s"⟩ (by decide) ⟨"r", "all"⟩ (by decide)).1

lemma goEscapeChar_plain (c : Char) (h1 : c ≠ '"') (h2 : c ≠ '\\')
    (h3 : 32 ≤ c.toNat) (h4 : c.toNat ≤ 126) : goEscapeChar c = [c] := by
  have h7 : c ≠ Char.ofNat 7 := by intro he; rw [he] at h3; exact absurd h3 (by decide)
  have h8 : c ≠ Char.ofNat 8 := by intro he; rw [he] at h3; exact absurd h3 (by decide)
  have h12 : c ≠ Char.ofNat 12 := by intro he; rw [he] at h3; exact absurd h3 (by decide)
  have hn : c ≠ '\n' := by intro he; rw [he] at h3; exact absurd h3 (by decide)
  have hr : c ≠ '\r' := by intro he; rw [he] at h3; exact absurd h3 (by decide)
  have ht : c ≠ '\t' := by intro he; rw [he] at h3; exact absurd h3 (by decide)
  have h11 : c ≠ Char.ofNat 11 := by intro he; rw [he] at h3; exact absurd h3 (by decide)
  have hx : ¬(c.toNat < 32 ∨ c.toNat = 127) := by omega
  simp [goEscapeChar, h1, h2, h7, h8, h12, hn, hr, ht, h11, hx]

lemma flatMap_goEscapeChar_plain (l : List Char)
    (h : ∀ c ∈ l, c ≠ '"' ∧ c ≠ '\\' ∧ 32 ≤ c.toNat ∧ c.toNat ≤ 126) :
    l.flatMap goEscapeChar = l := by
  induction l with
  | nil => rfl
  | cons c rest ih =>
    obtain ⟨h1, h2, h3, h4⟩ := h c (by simp)
    simp [List.flatMap_cons, goEscapeChar_plain c h1 h2 h3 h4,
      ih (fun d hd => h d (by simp [hd]))]

lemma goEscape_plain (r : String)
    (h : ∀ c ∈ r.data, c ≠ '"' ∧ c ≠ '\\' ∧ 32 ≤ c.toNat ∧ c.toNat ≤ 126) :
    goEscape r = r := by
  unfold goEscape
  rw [flatMap_goEscapeChar_plain r.data h]

lemma bypassrlsRead_queryTrace (u : String) (p : bypassrlsModel) (pg : PGState) :
    (bypassrlsRead (.conn u) p pg).queryTrace = [(queryBypassRLS, p.role)] := by
  simp only [bypassrlsRead]
  cases qryBypassRLS pg p.role <;> rfl

lemma replicationRead_queryTrace (u : String) (raw : TfRawState) (pg : PGState) :
    (replicationRead (.conn u) raw pg).queryTrace = [(queryReplication, raw.role)] := by
  simp only [replicationRead, decodeBypassrls]
  cases qryReplication pg raw.role <;> rfl

lemma connectionLimitRead_queryTrace (u : String) (p : connectionLimitModel) (pg : PGState) :
    (connectionLimitRead (.conn u) p pg).queryTrace = [(queryConnectionLimit, p.role)] := by
  simp only [connectionLimitRead]
  cases qryConnectionLimit pg p.role <;> rfl

lemma statementTimeoutRead_queryTrace (u : String) (p : statementTimeoutModel) (pg : PGState) :
    (statementTimeoutRead (.conn u) p pg).queryTrace = [(queryStatementTimeout, p.role)] := by
  simp only [statementTimeoutRead]
  cases hq : qryStatementTimeout pg p.role with
  | error e => cases e <;> rfl
  | ok s => rfl

lemma auditRead_queryTrace (u : String) (p : auditModel) (pg : PGState) :
    (auditRead (.conn u) p pg).queryTrace = [(queryAuditLog, p.role)] := by
  simp only [auditRead]
  cases qryAuditLog pg u p.role <;> rfl

/-- Claim C2: every mutating statement the provider can emit is of the form
`ALTER ROLE "<role>" …;` — `"ALTER ROLE "`, then the role name quoted under
Go's `%q` (wrapped in double quotes, quote and backslash characters
backslash-escaped, plain printable names passing through verbatim), then
the verb/value part, then a terminating semicolon.  Every read query is a
parameterized `SELECT` against `pg_roles` (for the audit and
statement-timeout resources reaching into session configuration /
per-role configuration arrays), with the role passed as the `$1` bind
argument by every `Read` handler. -/
theorem claim_C2 (u rP : String) (pg : PGState) (p1 : bypassrlsModel)
    (raw : TfRawState) (p3 : connectionLimitModel) (p4 : statementTimeoutModel)
    (p5 : auditModel)
    (hplain : ∀ c ∈ rP.data, c ≠ '"' ∧ c ≠ '\\' ∧ 32 ≤ c.toNat ∧ c.toNat ≤ 126) :
    (∀ stmt : PgStmt, ∃ mid : String,
      render stmt = (("ALTER ROLE " ++ goQuote (stmtRole stmt)) ++ mid) ++ ";") ∧
    (∀ r : String, (goQuote r).data = '"' :: ((goEscape r).data ++ ['"'])) ∧
    goEscapeChar '"' = ['\\', '"'] ∧
    goEscapeChar '\\' = ['\\', '\\'] ∧
    goQuote rP = ("\"" ++ rP) ++ "\"" ∧
    (startsWithStr queryBypassRLS "SELECT" = true ∧
      hasSubstr queryBypassRLS "$1" = true ∧
      hasSubstr queryBypassRLS "pg_roles" = true) ∧
    (startsWithStr queryReplication "SELECT" = true ∧
      hasSubstr queryReplication "$1" = true ∧
      hasSubstr queryReplication "pg_roles" = true) ∧
    (startsWithStr queryConnectionLimit "SELECT" = true ∧
      hasSubstr queryConnectionLimit "$1" = true ∧
      hasSubstr queryConnectionLimit "pg_roles" = true) ∧
    (startsWithStr queryStatementTimeout "SELECT" = true ∧
      hasSubstr queryStatementTimeout "$1" = true ∧
      hasSubstr queryStatementTimeout "pg_roles" = true) ∧
    (startsWithStr queryAuditLog "SELECT" = true ∧
      hasSubstr queryAuditLog "$1" = true ∧
      hasSubstr queryAuditLog "pg_roles" = true ∧
      hasSubstr queryAuditLog "current_setting" = true) ∧
    (bypassrlsRead (.conn u) p1 pg).queryTrace = [(queryBypassRLS, p1.role)] ∧
    (replicationRead (.conn u) raw pg).queryTrace = [(queryReplication, raw.role)] ∧
    (connectionLimitRead (.conn u) p3 pg).queryTrace = [(queryConnectionLimit, p3.role)] ∧
    (statementTimeoutRead (.conn u) p4 pg).queryTrace = [(queryStatementTimeout, p4.role)] ∧
    (auditRead (.conn u) p5 pg).queryTrace = [(queryAuditLog, p5.role)] := by
  refine ⟨?_, ?_, by decide, by decide, ?_, by decide, by decide, by decide, by decide,
    by decide, bypassrlsRead_queryTrace u p1 pg, replicationRead_queryTrace u raw pg,
    connectionLimitRead_queryTrace u p3 pg, statementTimeoutRead_queryTrace u p4 pg,
    auditRead_queryTrace u p5 pg⟩
  · intro stmt
    cases stmt with
    | alterBypassRLS r b =>
      cases b with
      | true => exact ⟨" BYPASSRLS", by simp [render, sqlEnableBypassRLS, stmtRole,
          String.append_assoc]⟩
      | false => exact ⟨" NOBYPASSRLS", by simp [render, sqlDisableBypassRLS, stmtRole,
          String.append_assoc]⟩
    | alterReplication r b =>
      cases b with
      | true => exact ⟨" REPLICATION", by simp [render, sqlEnableReplication, stmtRole,
          String.append_assoc]⟩
      | false => exact ⟨" NOREPLICATION", by simp [render, sqlDisableReplication, stmtRole,
          String.append_assoc]⟩
    | alterConnLimit r n =>
      exact ⟨" CONNECTION LIMIT " ++ toString n,
        by simp [render, sqlSetConnectionLimit, stmtRole, String.append_assoc]⟩
    | setStatementTimeout r t =>
      exact ⟨(" SET statement_timeout = '" ++ t) ++ "'",
        by simp [render, sqlSetStatementTimeout, stmtRole, String.append_assoc]⟩
    | resetStatementTimeout r =>
      exact ⟨" RESET statement_timeout",
        by simp [render, sqlResetStatementTimeout, stmtRole, String.append_assoc]⟩
    | setAuditLog r v =>
      exact ⟨(" SET pgaudit.log = '" ++ v) ++ "'",
        by simp [render, sqlSetAuditLog, stmtRole, String.append_assoc]⟩
    | resetAuditLog r =>
      exact ⟨" RESET pgaudit.log",
        by simp [render, sqlResetAuditLog, stmtRole, String.append_assoc]⟩
  · intro r
    simp [goQuote, String.data_append]
  · simp [goQuote, goEscape_plain rP hplain]

/-- Witness for C2 at a concrete input: the plain role name `app_user` is
quoted verbatim between double quotes. -/
theorem claim_C2_witness :
    goQuote "app_user" = ("\"" ++ "app_user") ++ "\"" :=
  (claim_C2 "postgres" "app_user" ⟨[], "none"⟩ ⟨"x", true⟩ ⟨"x", true⟩ ⟨"x", 5⟩
    ⟨"x", "100s"⟩ ⟨"x", "all"⟩ (by decide)).2.2.2.2.1

lemma mem_ite_nil {α : Type} (a : α) (c : Prop) [Decidable c] (l : List α) :
    a ∈ (if c then l else []) ↔ c ∧ a ∈ l := by
  split_ifs with h <;> simp [h]

lemma unknownDiags_eq_nil (cfg : pgroleModel) (h : noUnknown cfg = true) :
    unknownDiags cfg = [] := by
  simp only [noUnknown, Bool.and_eq_true, Bool.not_eq_true'] at h
  obtain ⟨⟨⟨⟨⟨⟨⟨⟨⟨ha, hb⟩, hc⟩, hd⟩, he⟩, hf⟩, hg⟩, hh⟩, hi⟩, hj⟩ := h
  simp [unknownDiags, ha, hb, hc, hd, he, hf, hg, hh, hi, hj]

lemma cloudMissingDiags_eq_nil (p r i d un : String) (hp : p ≠ "") (hr : r ≠ "")
    (hi : i ≠ "") (hd : d ≠ "") (hun : un ≠ "") :
    cloudMissingDiags p r i d un = [] := by
  simp [cloudMissingDiags, hp, hr, hi, hd, hun]

/-- Claim C3 counterexample: a configuration in the standard variant
(non-empty `host`) whose standard field set is *not* fully populated —
`password`, `port` and `sslmode` are all null — is nevertheless accepted by
`Configure` with no diagnostics: the missing fields are silently defaulted
into the DSN instead of being rejected with field-scoped errors. -/
theorem claim_C3_counterexample :
    configure ⟨.null, .null, .null, .null, .val "u", .null, .val "localhost",
        .null, .null, .null⟩ =
      ⟨[], some (.standardPostgres "postgres://u:@localhost:5432/postgres?sslmode=disable")⟩ ∧
    (⟨.null, .null, .null, .null, .val "u", .null, .val "localhost",
        .null, .null, .null⟩ : pgroleModel).password = .null := by
  refine ⟨by decide, rfl⟩

/-- Claim C3 (amended): `Configure` validates completeness only for the
Cloud-SQL variant.  When `host` is non-empty the configuration is accepted
with no diagnostics, the unset standard fields silently defaulted
(`password` to empty, `port` to 5432, `sslmode` to `disable`).  When `host`
is empty, each empty Cloud-SQL field — `project_id`, `region`, `instance`,
`database`, `username` — contributes exactly its field-scoped diagnostic
naming the missing field, and the configuration is rejected (no factory is
installed) precisely when at least one such field is missing. -/
theorem claim_C3 (cfg1 : pgroleModel) (hu1 : noUnknown cfg1 = true)
    (hh1 : cfg1.host.extract "" ≠ "")
    (cfg2 : pgroleModel) (hu2 : noUnknown cfg2 = true)
    (hh2 : cfg2.host.extract "" = "") :
    configure cfg1 = ⟨[], some (.standardPostgres (standardDSN
      (cfg1.username.extract "") (cfg1.password.extract "") (cfg1.host.extract "")
      (cfg1.port.extract 5432) (cfg1.database.extract "postgres")
      (cfg1.sslmode.extract "disable")))⟩ ∧
    (("project_id", "missing project_id") ∈ (configure cfg2).diags ↔
      cfg2.projectID.extract "" = "") ∧
    (("region", "missing region") ∈ (configure cfg2).diags ↔
      cfg2.region.extract "" = "") ∧
    (("instance", "missing instance") ∈ (configure cfg2).diags ↔
      cfg2.inst.extract "" = "") ∧
    (("database", "missing database") ∈ (configure cfg2).diags ↔
      cfg2.database.extract "postgres" = "") ∧
    (("username", "missing username") ∈ (configure cfg2).diags ↔
      cfg2.username.extract "" = "") ∧
    ((configure cfg2).dbgetter = none ↔
      (cfg2.projectID.extract "" = "" ∨ cfg2.region.extract "" = "" ∨
        cfg2.inst.extract "" = "" ∨ cfg2.database.extract "postgres" = "" ∨
        cfg2.username.extract "" = "")) := by
  refine ⟨?_, ?_⟩
  · simp [configure, unknownDiags_eq_nil cfg1 hu1, hh1]
  · by_cases hp : cfg2.projectID.extract "" = "" <;>
      by_cases hr : cfg2.region.extract "" = "" <;>
        by_cases hi : cfg2.inst.extract "" = "" <;>
          by_cases hd : cfg2.database.extract "postgres" = "" <;>
            by_cases hn : cfg2.username.extract "" = "" <;>
              simp [configure, unknownDiags_eq_nil cfg2 hu2, hh2, cloudMissingDiags,
                hp, hr, hi, hd, hn] <;>
              (try (split_ifs <;> simp))

/-- Witness for the amended C3 at concrete inputs: a host-only standard
configuration is accepted with defaults; a Cloud-SQL configuration missing
`project_id` reports exactly that field. -/
theorem claim_C3_witness :
    configure ⟨.null, .null, .null, .null, .val "u", .null, .val "h", .null,
        .null, .null⟩ =
      ⟨[], some (.standardPostgres (standardDSN "u" "" "h" 5432 "postgres" "disable"))⟩ :=
  (claim_C3 ⟨.null, .null, .null, .null, .val "u", .null, .val "h", .null, .null, .null⟩
    (by decide) (by decide)
    ⟨.null, .val "r", .val "i", .null, .val "u", .null, .null, .null, .null, .null⟩
    (by decide) (by decide)).1

/-- Claim C4: connection-factory selection is by presence of `host` and
installs exactly one variant.  With no unknown attributes: if `host` is
non-empty, `Configure` installs the standard getter over the
`postgres://…` DSN; if `host` is empty and the Cloud-SQL fields are all
populated, it installs a getter over the `gcppostgres://…` DSN — the
impersonating one exactly when `impersonate_service_account` is non-empty,
the plain Cloud-SQL one otherwise. -/
theorem claim_C4 (cfg1 : pgroleModel) (hu1 : noUnknown cfg1 = true)
    (hh1 : cfg1.host.extract "" ≠ "")
    (cfg2 : pgroleModel) (hu2 : noUnknown cfg2 = true)
    (hh2 : cfg2.host.extract "" = "")
    (hp : cfg2.projectID.extract "" ≠ "") (hr : cfg2.region.extract "" ≠ "")
    (hi : cfg2.inst.extract "" ≠ "") (hd : cfg2.database.extract "postgres" ≠ "")
    (hn : cfg2.username.extract "" ≠ "") :
    (configure cfg1).dbgetter = some (.standardPostgres (standardDSN
      (cfg1.username.extract "") (cfg1.password.extract "") (cfg1.host.extract "")
      (cfg1.port.extract 5432) (cfg1.database.extract "postgres")
      (cfg1.sslmode.extract "disable"))) ∧
    configure cfg2 = ⟨[], some
      (if cfg2.impersonateServiceAccount.extract "" = "" then
        .database (cloudDSN (cfg2.username.extract "") (cfg2.projectID.extract "")
          (cfg2.region.extract "") (cfg2.inst.extract "")
          (cfg2.database.extract "postgres"))
      else
        .databaseWithImpersonation (cloudDSN (cfg2.username.extract "")
          (cfg2.projectID.extract "") (cfg2.region.extract "")
          (cfg2.inst.extract "") (cfg2.database.extract "postgres"))
          (cfg2.impersonateServiceAccount.extract ""))⟩ := by
  constructor
  · simp [configure, unknownDiags_eq_nil cfg1 hu1, hh1]
  · by_cases hisa : cfg2.impersonateServiceAccount.extract "" = "" <;>
      simp [configure, unknownDiags_eq_nil cfg2 hu2, hh2,
        cloudMissingDiags_eq_nil _ _ _ _ _ hp hr hi hd hn, hisa]

/-- Witness for C4 at concrete inputs: a standard host-based configuration
and a fully populated Cloud-SQL configuration without impersonation. -/
theorem claim_C4_witness :
    configure ⟨.val "p", .val "rg", .val "i", .val "d", .val "u", .null, .null,
        .null, .null, .null⟩ =
      ⟨[], some (.database (cloudDSN "u" "p" "rg" "i" "d"))⟩ :=
  (claim_C4 ⟨.null, .null, .null, .null, .val "u", .null, .val "h", .null, .null, .null⟩
    (by decide) (by decide)
    ⟨.val "p", .val "rg", .val "i", .val "d", .val "u", .null, .null, .null, .null, .null⟩
    (by decide) (by decide) (by decide) (by decide) (by decide) (by decide)
    (by decide)).2.trans (by decide)

end Pgrole
